import Mathlib

/-!
Verification development for the Atticus Chat API repository: a shallow
embedding in Lean 4 of the three serverless handlers
(`api/profile.js`, `/api/claude.js`, `/api/claude-v2.js`) together with
proofs about the behaviour the repository specification describes.

JavaScript values are embedded as the inductive type `JSValue`
(undefined, null, booleans, integer numbers, strings, objects as ordered
field lists, arrays).  JavaScript string lengths are modelled as
code-point counts (`String.length`), and numbers are restricted to
integers, which covers every value the handlers manipulate.
-/

set_option linter.unusedVariables false

namespace AtticusChat

/-- Embedded JavaScript values.  Objects are ordered association lists
(JS own-property insertion order); numbers are restricted to the
integers that actually appear in the code. -/
inductive JSValue where
  | undefined : JSValue
  | null : JSValue
  | bool : Bool → JSValue
  | num : Int → JSValue
  | str : String → JSValue
  | obj : List (String × JSValue) → JSValue
  | arr : List JSValue → JSValue

/-- JavaScript truthiness: `undefined`, `null`, `false`, `0` and the
empty string are falsy; every object and array is truthy. -/
def truthy : JSValue → Bool
  | .undefined => false
  | .null => false
  | .bool b => b
  | .num n => n != 0
  | .str s => s != ""
  | .obj _ => true
  | .arr _ => true

/-- The JavaScript `typeof` operator (note `typeof null` is
`"object"`, and arrays are `"object"` as well). -/
def jsTypeof : JSValue → String
  | .undefined => "undefined"
  | .null => "object"
  | .bool _ => "boolean"
  | .num _ => "number"
  | .str _ => "string"
  | .obj _ => "object"
  | .arr _ => "object"

/-- Spec-side notion "is an object": the JavaScript objects are the
object and array values (`typeof` also answers `"object"` for `null`,
but `null` is a primitive, not an object). -/
def isObjectValue : JSValue → Bool
  | .obj _ => true
  | .arr _ => true
  | _ => false

/-- Property access `v[k]` on an object field list: the first binding
of the key, `undefined` when the key is missing. -/
def getField (fields : List (String × JSValue)) (k : String) : JSValue :=
  match fields.find? (fun p => p.1 == k) with
  | some p => p.2
  | none => .undefined

/-- A canonical array index: `k` parses back to the number it prints
as (JavaScript array index property keys). -/
def parseIndex (k : String) : Option Nat :=
  match k.toNat? with
  | some n => if toString n == k then some n else none
  | none => none

/-- Property access `v[k]`: object field lookup, element access for
canonical index keys on arrays and strings, `undefined` otherwise
(no handler reads any further property kind). -/
def getProp (v : JSValue) (k : String) : JSValue :=
  match v with
  | .obj fields => getField fields k
  | .arr elems =>
      match parseIndex k with
      | some i => (elems.get? i).getD .undefined
      | none => .undefined
  | .str s =>
      match parseIndex k with
      | some i =>
          match s.data.get? i with
          | some c => .str ⟨[c]⟩
          | none => .undefined
      | none => .undefined
  | _ => .undefined

/-- `Object.keys`: own enumerable keys of an object (the model assumes
the field list has distinct keys, as every JavaScript object does),
index keys for arrays and strings, `[]` for primitives. -/
def jsObjectKeys : JSValue → List String
  | .obj fields => fields.map Prod.fst
  | .arr elems => (List.range elems.length).map toString
  | .str s => (List.range s.length).map toString
  | _ => []

mutual

/-- JavaScript string coercion `String(v)` (used for computed property
keys and template literals): arrays join their elements with `,` where
`null`/`undefined` elements print as the empty string, plain objects
print `[object Object]`. -/
def jsToString : JSValue → String
  | .undefined => "undefined"
  | .null => "null"
  | .bool b => if b then "true" else "false"
  | .num n => toString n
  | .str s => s
  | .obj _ => "[object Object]"
  | .arr elems => String.intercalate "," (jsToStringElems elems)

def jsToStringElems : List JSValue → List String
  | [] => []
  | .undefined :: rest => "" :: jsToStringElems rest
  | .null :: rest => "" :: jsToStringElems rest
  | v :: rest => jsToString v :: jsToStringElems rest

end

/-- `s.slice(0, n)` for `0 ≤ n`: the first `n` characters. -/
def strTake (s : String) (n : Nat) : String :=
  ⟨s.data.take n⟩

/-!
JavaScript string methods are modelled on the character data directly
(`String.data`), which keeps them computable by the kernel: `jsStartsWith`
is `s.startsWith(pre)`, `jsIncludes` is `s.includes(c)` for a one-character
needle, `jsEndsWith` is `s.endsWith(suffix)`, and `jsSplitChar` is
`s.split(sep)` for a one-character separator.
-/

/-- `s.startsWith(pre)`. -/
def jsStartsWith (s pre : String) : Bool :=
  pre.data.isPrefixOf s.data

/-- `s.includes(c)` for a single character. -/
def jsIncludes (s : String) (c : Char) : Bool :=
  s.data.contains c

/-- `s.endsWith(suffix)`. -/
def jsEndsWith (s suffix : String) : Bool :=
  suffix.data.isSuffixOf s.data

/-- Accumulator pass for `jsSplitChar`. -/
def splitCharAux (sep : Char) : List Char → List Char → List String
  | [], acc => [⟨acc.reverse⟩]
  | c :: rest, acc =>
      if c = sep then ⟨acc.reverse⟩ :: splitCharAux sep rest []
      else splitCharAux sep rest (c :: acc)

/-- `s.split(sep)` for a one-character separator: every occurrence
splits, the empty string yields `[""]`. -/
def jsSplitChar (s : String) (sep : Char) : List String :=
  splitCharAux sep s.data []

/-- One hexadecimal digit (lower case), as `JSON.stringify` emits in
`\u00XX` escapes. -/
def hexDigit (n : Nat) : Char :=
  if n < 10 then Char.ofNat (48 + n) else Char.ofNat (87 + n)

/-- `JSON.stringify` escaping of one string character: `"` and `\`
are backslash-escaped, the named control characters use their short
escapes, other control characters become `\u00XX`. -/
def jsonEscapeChar (c : Char) : List Char :=
  if c = Char.ofNat 34 then [Char.ofNat 92, Char.ofNat 34]
  else if c = Char.ofNat 92 then [Char.ofNat 92, Char.ofNat 92]
  else if c = Char.ofNat 8 then [Char.ofNat 92, 'b']
  else if c = Char.ofNat 9 then [Char.ofNat 92, 't']
  else if c = Char.ofNat 10 then [Char.ofNat 92, 'n']
  else if c = Char.ofNat 12 then [Char.ofNat 92, 'f']
  else if c = Char.ofNat 13 then [Char.ofNat 92, 'r']
  else if c.toNat < 32 then
    [Char.ofNat 92, 'u', '0', '0', hexDigit (c.toNat / 16), hexDigit (c.toNat % 16)]
  else [c]

/-- A JSON string literal: quotes around the escaped character data. -/
def jsonQuote (s : String) : String :=
  ⟨Char.ofNat 34 :: (s.data.flatMap jsonEscapeChar) ++ [Char.ofNat 34]⟩

mutual

/-- `JSON.stringify`.  Returns `none` exactly where JavaScript returns
the value `undefined` instead of a string (a top-level `undefined`);
inside arrays such values print as `null`, inside objects the member is
dropped. -/
def stringify : JSValue → Option String
  | .undefined => none
  | .null => some "null"
  | .bool b => some (if b then "true" else "false")
  | .num n => some (toString n)
  | .str s => some (jsonQuote s)
  | .obj fields =>
      some ("\x7b" ++ String.intercalate "," (stringifyFields fields) ++ "\x7d")
  | .arr elems =>
      some ("[" ++ String.intercalate "," (stringifyElems elems) ++ "]")

/-- Object members: each defined member as `"key":value`, members whose
value serializes to nothing (`undefined`) are dropped. -/
def stringifyFields : List (String × JSValue) → List String
  | [] => []
  | (k, v) :: rest =>
      match stringify v with
      | none => stringifyFields rest
      | some sv => (jsonQuote k ++ ":" ++ sv) :: stringifyFields rest

/-- Array elements: an element that serializes to nothing prints as
`null`. -/
def stringifyElems : List JSValue → List String
  | [] => []
  | v :: rest => ((stringify v).getD "null") :: stringifyElems rest

end

/-- An HTTP response as the handlers produce it: a status code and the
JSON payload passed to `res.json` (`undefined` for an empty body from
`res.end()`).  Response headers are not modelled; no claim concerns
them. -/
structure Response where
  status : Nat
  body : JSValue

namespace ProfileApi

/-- `api/profile.js` – `handler`.  The request is modelled by its
method and parsed body; `now` stands for `new Date().toISOString()` at
the time of the call.  The CORS `setHeader` calls are effect-free in
this model. -/
def handler (method : String) (body : JSValue) (now : String) : Response :=
  if method == "OPTIONS" then
    { status := 200, body := .undefined }
  else if method != "POST" then
    { status := 405, body := .obj [("error", .str "Method not allowed")] }
  else
    let profile := if truthy body then body else .obj []
    if !(truthy profile) || jsTypeof profile != "object" then
      { status := 400, body := .obj [("error", .str "Invalid profile payload")] }
    else
      { status := 200, body := .obj [("ok", .bool true), ("receivedAt", .str now)] }

end ProfileApi

/-! ## Base64 and UTF-8 decoding

`/api/claude.js` decodes fallback tokens with
`Buffer.from(token, 'base64').toString('utf-8')`.  Node base64 decoding
is lenient: characters outside the alphabet (including `=` padding) are
skipped and a trailing partial group of a single sextet is dropped; it
never throws. -/

/-- The value of a base64 alphabet character, `none` for everything
else. -/
def b64Val (c : Char) : Option Nat :=
  if 65 ≤ c.toNat && c.toNat ≤ 90 then some (c.toNat - 65)
  else if 97 ≤ c.toNat && c.toNat ≤ 122 then some (c.toNat - 97 + 26)
  else if 48 ≤ c.toNat && c.toNat ≤ 57 then some (c.toNat - 48 + 52)
  else if c = '+' then some 62
  else if c = '/' then some 63
  else none

/-- Groups of four sextets become three bytes; a trailing group of
three or two sextets yields two or one byte; a lone sextet is
dropped. -/
def b64Groups : List Nat → List Nat
  | a :: b :: c :: d :: rest =>
      (a * 4 + b / 16) :: ((b % 16) * 16 + c / 4) :: ((c % 4) * 64 + d) :: b64Groups rest
  | [a, b, c] => [a * 4 + b / 16, (b % 16) * 16 + c / 4]
  | [a, b] => [a * 4 + b / 16]
  | _ => []

/-- A UTF-8 continuation byte. -/
def isCont (b : Nat) : Bool := 128 ≤ b && b < 192

/-- UTF-8 byte-sequence decoding, driven by a fuel counter (the length
of the byte list, so structural recursion keeps every call kernel
computable); a malformed byte decodes to the replacement character
U+FFFD (as Node does). -/
def utf8DecodeAux : Nat → List Nat → List Char
  | _, [] => []
  | 0, _ :: _ => []
  | fuel + 1, b :: rest =>
    if b < 128 then Char.ofNat b :: utf8DecodeAux fuel rest
    else if b < 192 then Char.ofNat 0xFFFD :: utf8DecodeAux fuel rest
    else if b < 224 then
      match rest with
      | c :: rest2 =>
          if isCont c then Char.ofNat ((b - 192) * 64 + (c - 128)) :: utf8DecodeAux fuel rest2
          else Char.ofNat 0xFFFD :: utf8DecodeAux fuel rest
      | [] => [Char.ofNat 0xFFFD]
    else if b < 240 then
      match rest with
      | c :: d :: rest2 =>
          if isCont c && isCont d then
            Char.ofNat ((b - 224) * 4096 + (c - 128) * 64 + (d - 128))
              :: utf8DecodeAux fuel rest2
          else Char.ofNat 0xFFFD :: utf8DecodeAux fuel rest
      | _ => Char.ofNat 0xFFFD :: utf8DecodeAux fuel rest
    else
      match rest with
      | c :: d :: e :: rest2 =>
          if isCont c && isCont d && isCont e then
            Char.ofNat ((b - 240) * 262144 + (c - 128) * 4096 + (d - 128) * 64 + (e - 128))
              :: utf8DecodeAux fuel rest2
          else Char.ofNat 0xFFFD :: utf8DecodeAux fuel rest
      | _ => Char.ofNat 0xFFFD :: utf8DecodeAux fuel rest

/-- UTF-8 decoding of a byte list. -/
def utf8Decode (l : List Nat) : List Char :=
  utf8DecodeAux l.length l

/-- `Buffer.from(s, 'base64').toString('utf-8')`. -/
def bufferBase64ToUtf8 (s : String) : String :=
  ⟨utf8Decode (b64Groups (s.data.filterMap b64Val))⟩

namespace ClaudeApi

/-- One row of `TIER_CONFIG`. -/
structure TierConfig where
  dailyLimit : Nat
  name : String

/-- `/api/claude.js` – `TIER_CONFIG`. -/
def TIER_CONFIG : List (String × TierConfig) :=
  [ ("free", { dailyLimit := 12, name := "Gratuit" })
  , ("beta", { dailyLimit := 25, name := "Beta" })
  , ("premium", { dailyLimit := 25, name := "Premium" }) ]

/-- A Clerk user record, reduced to the fields the handlers read.
`primaryEmail` models `user.primaryEmailAddress?.emailAddress`
(`none` when the optional chain yields `undefined`); the metadata bags
model `user.publicMetadata` / `user.privateMetadata` (an absent bag is
the empty list, matching the `|| \x7b\x7d` guard in `getUserTier`). -/
structure User where
  id : String
  firstName : String
  primaryEmail : Option String
  publicMetadata : List (String × JSValue)
  privateMetadata : List (String × JSValue)

/-- `/api/claude.js` – `getUserTier`. -/
def getUserTier (user : User) : JSValue :=
  let publicMetadata := user.publicMetadata
  let privateMetadata := user.privateMetadata
  let privTier := getField privateMetadata "tier"
  if truthy privTier then privTier
  else
    let pubTier := getField publicMetadata "tier"
    if truthy pubTier then pubTier
    else
      let email := user.primaryEmail.getD ""
      if jsEndsWith email "@atticusconseil.com" || jsEndsWith email "@atticus.com"
          || truthy (getField publicMetadata "betaAccess") then
        .str "beta"
      else
        .str "free"

/-- Spec-side reading of "the tier field if present" (claim C2): a
metadata `tier` member counts as present when it holds a non-empty
string — tier names are non-empty strings throughout the spec.  This
definition follows the specification text and is compared against the
source-derived `getUserTier`. -/
def specTierField (v : JSValue) : Option String :=
  match v with
  | .str s => if s = "" then none else some s
  | _ => none

/-- Spec-side tier derivation, following §4.3 of the specification
word for word: private-metadata tier if present, else public-metadata
tier if present, else `beta` on the email allow-list or a truthy
`betaAccess` flag, else `free`. -/
def specTier (u : User) : JSValue :=
  match specTierField (getField u.privateMetadata "tier") with
  | some t => .str t
  | none =>
    match specTierField (getField u.publicMetadata "tier") with
    | some t => .str t
    | none =>
      let email := u.primaryEmail.getD ""
      if jsEndsWith email "@atticusconseil.com" || jsEndsWith email "@atticus.com"
          || truthy (getField u.publicMetadata "betaAccess") then
        .str "beta"
      else
        .str "free"

/-- The identity provider as the handler observes it.  Each field
models one Clerk API call; `none` models the call raising (rejecting),
which is what triggers the next fallback strategy in
`authenticateUser`.  (`getSession` returns the session record reduced
to its `userId`.) -/
structure ClerkEnv where
  getSession : String → Option String
  verifyToken : String → Option (Option String)
  getUser : String → Option User

/-- The value of `authenticateUser`: either an error object
`\x7b error, status \x7d` or a success object carrying the user, the
derived tier and the user id. -/
inductive AuthResult where
  | failure (error : String) (status : Nat)
  | success (user : User) (userTier : JSValue) (userId : String)

/-- Try 3 / Try 4 of `authenticateUser` (the body of the
`jwtError` catch): the value of `user` when the block finishes.
A raise from the inner base64 branch is caught and retried as a direct
lookup (`catch (base64Error)`); a raise from the direct lookup itself
is swallowed by `catch (fallbackError)`.  `user` is a mutable `let` of
the source: the statement `user = await getUser(userId)` assigns
*before* the email-mismatch check throws, and the retry assignment
`user = await getUser(token)` in the catch happens only when that call
resolves — so when the retry rejects after a mismatch, `user` retains
the already-fetched mismatched user, and authentication succeeds as
them.  Only when the fetch by `userId` itself raised (nothing was
assigned) does a rejecting retry leave `user` undefined. -/
def tryFallback (env : ClerkEnv) (token : String) : Option User :=
  if !(jsIncludes token ':') && token.length > 20 then
    let decoded := bufferBase64ToUtf8 token
    if jsIncludes decoded ':' then
      let parts := jsSplitChar decoded ':'
      let email := parts.headD ""
      let userId := (parts.drop 1).headD ""
      if email != "" && userId != "" then
        match env.getUser userId with
        | none => env.getUser token
        | some u =>
            if u.primaryEmail != some email then
              match env.getUser token with
              | some u2 => some u2
              | none => some u
            else some u
      else none
    else none
  else
    env.getUser token

/-- Try 2 of `authenticateUser` (the body of the `sessionError`
catch): JWT verification; a raise of `verifyToken` or of the user
fetch falls through to `tryFallback`; a verified token without a `sub`
claim leaves `user` undefined. -/
def tryJwt (env : ClerkEnv) (token : String) : Option User :=
  match env.verifyToken token with
  | none => tryFallback env token
  | some none => none
  | some (some sub) =>
      match env.getUser sub with
      | some u => some u
      | none => tryFallback env token

/-- `/api/claude.js` – `authenticateUser`.  The request is modelled by
its `Authorization` header (`none` when absent).  Try 1 treats the
token as a session id; a raise of the session fetch or the subsequent
user fetch falls through to `tryJwt`. -/
def authenticateUser (env : ClerkEnv) (authHeader : Option String) : AuthResult :=
  match authHeader with
  | none => .failure "Missing or invalid authorization header" 401
  | some h =>
    if !(jsStartsWith h "Bearer ") then
      .failure "Missing or invalid authorization header" 401
    else
      let token := h.drop 7
      let user? : Option User :=
        match env.getSession token with
        | some sessionUserId =>
            match env.getUser sessionUserId with
            | some u => some u
            | none => tryJwt env token
        | none => tryJwt env token
      match user? with
      | none => .failure "Invalid authentication token" 401
      | some user => .success user (getUserTier user) user.id

/-- `\x7b used, limit \x7d` inside a usage-check result; `limit` is
`none` when the JavaScript value is `undefined` (the prototype-chain
case, where `tierConfig.dailyLimit` does not exist). -/
structure UsageInfo where
  used : Nat
  limit : Option Nat

/-- The value of `checkUsageLimit`: `allowed` plus the optional
`reason` and `usage` members. -/
structure UsageCheck where
  allowed : Bool
  reason : Option String
  usage : Option UsageInfo

/-- The own member names of `Object.prototype` (Node/V8): a property
read on an object literal that misses every own key continues along
the prototype chain and finds these, all of which are truthy
(functions, and the prototype object itself for `__proto__`). -/
def objectPrototypeKeys : List String :=
  [ "constructor", "hasOwnProperty", "isPrototypeOf",
    "propertyIsOwnEnumerable", "toLocaleString", "toString", "valueOf",
    "__defineGetter__", "__defineSetter__", "__lookupGetter__",
    "__lookupSetter__", "__proto__" ]

/-- The outcome of the property read `TIER_CONFIG[key]`: an own row of
the table, a truthy member inherited from `Object.prototype`, or
`undefined`. -/
inductive TierLookup where
  | row (cfg : TierConfig)
  | inherited
  | missing

/-- `TIER_CONFIG[key]`, prototype chain included. -/
def tierConfigLookup (key : String) : TierLookup :=
  match TIER_CONFIG.find? (fun p => p.1 == key) with
  | some p => .row p.2
  | none =>
      if objectPrototypeKeys.contains key then .inherited else .missing

/-- `/api/claude.js` – `checkUsageLimit`.  The tier value arrives as
the raw metadata value, and `TIER_CONFIG[userTier]` coerces it to a
property key (`jsToString`) and reads through the prototype chain.
In the inherited case (`userTier` naming an `Object.prototype` member
such as `toString`) `tierConfig` is a truthy function, so the
`!tierConfig` guard does not fire; `tierConfig.dailyLimit` is
`undefined`, `0 >= undefined` is false (NaN comparison), and the check
allows with `limit: undefined`.  `currentUsage` is the literal `0` of
the source (the TODO placeholder); the `today`/`usageKey` locals of
the source are computed but never read, so they are not modelled. -/
def checkUsageLimit (userId : String) (userTier : JSValue) : UsageCheck :=
  match tierConfigLookup (jsToString userTier) with
  | .missing => { allowed := false, reason := some "Invalid user tier", usage := none }
  | .inherited =>
      { allowed := true
      , reason := none
      , usage := some { used := 0, limit := none } }
  | .row tierConfig =>
      let currentUsage := 0
      if currentUsage ≥ tierConfig.dailyLimit then
        { allowed := false
        , reason := some ("Daily limit of " ++ toString tierConfig.dailyLimit
            ++ " messages exceeded")
        , usage := some { used := currentUsage, limit := some tierConfig.dailyLimit } }
      else
        { allowed := true
        , reason := none
        , usage := some { used := currentUsage, limit := some tierConfig.dailyLimit } }

/-- `/api/claude.js` – `incrementUsage`: a placeholder that only logs
and reports success. -/
def incrementUsage (userId : String) : Bool := true

/-- `/api/claude.js` – `safeJSONString`.  `JSON.stringify` of a
top-level `undefined` yields the value `undefined`, so `s.length`
raises and the catch returns the empty-object literal; on our
cycle-free values no other raise is possible. -/
def safeJSONString (obj : JSValue) (maxLen : Nat := 4000) : String :=
  match stringify obj with
  | none => "\x7b\x7d"
  | some s =>
    if s.length ≤ maxLen then s
    else
      let keys := (jsObjectKeys obj).take 20
      let reduced := JSValue.obj (keys.map (fun k => (k, getProp obj k)))
      let out := (stringify reduced).getD "undefined"
      if out.length > maxLen then strTake out (maxLen - 3) ++ "..." else out

/-- The fixed text of the profile block around the serialized JSON
(the template literal in `appendProfileToSystem`). -/
def profileBlock (json : String) : String :=
  "\n---\nPROFIL UTILISATEUR (résumé JSON à utiliser pour personnaliser sans le répéter mot à mot) :\n"
    ++ json
    ++ "\n\nConsignes de personnalisation :\n- Adapter systématiquement recommandations au profil (objectifs, tolérance au risque, horizon, capacité d\x27épargne).\n- Ne pas réimprimer le JSON brut ; intégrer l\x27info naturellement dans la réponse.\n- Privilégier le droit/fiscalité FR et rappeler limites si info manquante/incertaine.\n---"

/-- `/api/claude.js` – `appendProfileToSystem`. -/
def appendProfileToSystem (baseSystem : String) (profile : JSValue) : String :=
  if !(truthy profile) || jsTypeof profile != "object" then baseSystem
  else
    let json := safeJSONString profile 4000
    baseSystem ++ "\n" ++ profileBlock json

/-- The default system prompt of `/api/claude.js` (`BASE_SYSTEM` when
no `system` override arrives).  The multi-kilobyte French persona text
with the embedded chart mini-language examples is configuration data
reproduced here only by its opening words; no claim depends on its
content, only on whether it is replaced or extended. -/
def BASE_PERSONA : String :=
  "Vous etes Atticus Chat, un assistant IA expert en gestion de patrimoine et investissement en France. [texte du persona et du mini-langage CHART, donnees de configuration]"

/-- The outcome of the `fetch` to the Claude messages endpoint:
`status` drives `resp.ok` (`200 ≤ status < 300`), `bodyText` is what
`resp.text()` would yield on an error (only logged), `json` is the
parsed success payload. -/
structure ProviderResponse where
  status : Nat
  bodyText : String
  json : JSValue

/-- `resp.ok`. -/
def respOk (r : ProviderResponse) : Bool := 200 ≤ r.status && r.status < 300

/-- Everything ambient the chat handler reads besides the request:
the Clerk client, the `CLAUDE_API_KEY` environment variable (`none`
when unset), the LLM provider (a function of the outbound request
fields `model`, `max_tokens`, `system`, `messages`), and the
`resetTime` value `new Date().setHours(24, 0, 0, 0)` of the moment of
the call. -/
structure ChatWorld where
  clerk : ClerkEnv
  claudeApiKey : Option String
  provider : JSValue → JSValue → String → JSValue → ProviderResponse
  resetTime : Int

/-- ES2015 destructuring with default: the default applies exactly
when the property is `undefined`. -/
def destructure (v : JSValue) (k : String) (dflt : JSValue) : JSValue :=
  match getProp v k with
  | .undefined => dflt
  | x => x

/-- The optional `usage` member of a `checkUsageLimit` result as a
JavaScript value (`undefined` when the member is absent). -/
def usageToJS : Option UsageInfo → JSValue
  | none => .undefined
  | some u => .obj [("used", .num u.used),
      ("limit", match u.limit with
        | some l => .num l
        | none => .undefined)]

/-- Object-literal assignment of a key: an existing key keeps its
position and gets the new value, a new key is appended. -/
def setField (fields : List (String × JSValue)) (k : String) (v : JSValue) :
    List (String × JSValue) :=
  if fields.any (fun p => p.1 == k) then
    fields.map (fun p => if p.1 == k then (p.1, v) else p)
  else fields ++ [(k, v)]

/-- `\x7b ...data, k1: v1, k2: v2 \x7d`: spread of the provider payload
followed by explicit members.  (The provider payload is an object;
spreading a primitive contributes nothing.) -/
def spreadWith (data : JSValue) (extra : List (String × JSValue)) : JSValue :=
  let base := match data with
    | .obj fs => fs
    | _ => []
  .obj (extra.foldl (fun acc kv => setField acc kv.1 kv.2) base)

/-- The provider response the handler's `fetch` obtains for a given
request body: the outbound `model`, `max_tokens`, `system` and
`messages` exactly as the handler's destructuring computes them.
(Used to state claims about the non-success path; the handler's own
`let` chain is definitionally this application.) -/
def chatOutboundResp (w : ChatWorld) (reqBody : JSValue) : ProviderResponse :=
  let b := if truthy reqBody then reqBody else .obj []
  let messages := destructure b "messages" (.arr [])
  let model := destructure b "model" (.str "claude-sonnet-4-20250514")
  let max_tokens := destructure b "max_tokens" (.num 3000)
  let profile := getProp b "profile"
  let incomingSystem := getProp b "system"
  let BASE_SYSTEM :=
    if truthy incomingSystem then jsToString incomingSystem else BASE_PERSONA
  let system := appendProfileToSystem BASE_SYSTEM profile
  w.provider model max_tokens system messages

/-- `/api/claude.js` – `handler` (the default export).  The request is
modelled by its method, `Authorization` header and parsed body.  The
preflight branch is the second (hoisting-winning) `applyCors`
definition, which answers `OPTIONS` with 204; response headers are not
modelled.  `incrementUsage` is invoked for fidelity although its stub
result is unused. -/
def handler (w : ChatWorld) (method : String) (authHeader : Option String)
    (reqBody : JSValue) : Response :=
  if method == "OPTIONS" then { status := 204, body := .undefined }
  else if method != "POST" then
    { status := 405, body := .obj [("error", .str "Method Not Allowed")] }
  else
    match authenticateUser w.clerk authHeader with
    | .failure err status =>
        { status := status, body := .obj [("error", .str err)] }
    | .success user userTier userId =>
        let usageCheck := checkUsageLimit userId userTier
        if !usageCheck.allowed then
          { status := 429
          , body := .obj
              [ ("error", .str "Usage limit exceeded")
              , ("reason", match usageCheck.reason with
                  | some r => .str r
                  | none => .undefined)
              , ("usage", usageToJS usageCheck.usage)
              , ("userTier", userTier)
              , ("resetTime", .num w.resetTime) ] }
        else
          match w.claudeApiKey with
          | none =>
              { status := 500
              , body := .obj [("error", .str "Server configuration error")] }
          | some _apiKey =>
              let b := if truthy reqBody then reqBody else .obj []
              let messages := destructure b "messages" (.arr [])
              let model := destructure b "model" (.str "claude-sonnet-4-20250514")
              let max_tokens := destructure b "max_tokens" (.num 3000)
              let profile := getProp b "profile"
              let incomingSystem := getProp b "system"
              let BASE_SYSTEM :=
                if truthy incomingSystem then jsToString incomingSystem else BASE_PERSONA
              let system := appendProfileToSystem BASE_SYSTEM profile
              let resp := w.provider model max_tokens system messages
              if !(respOk resp) then
                { status := if resp.status ≥ 500 then 500 else resp.status
                , body := .obj [("error", .str
                    (if resp.status ≥ 500 then "Internal server error"
                     else "API request failed"))] }
              else
                let _ := incrementUsage userId
                let updatedUsage := checkUsageLimit userId userTier
                { status := 200
                , body := spreadWith resp.json
                    [("usage", usageToJS updatedUsage.usage), ("userTier", userTier)] }

end ClaudeApi

/-! ## Supporting lemmas -/

/-- Characterization of the Profile Intake endpoint on `POST`: the
`|| \x7b\x7d` default makes every falsy body an empty object, so the
400 branch fires exactly for a truthy body whose `typeof` is not
`object`. -/
theorem profile_handler_post (body : JSValue) (now : String) :
    ProfileApi.handler "POST" body now =
      if truthy body = true ∧ jsTypeof body ≠ "object" then
        { status := 400, body := .obj [("error", .str "Invalid profile payload")] }
      else
        { status := 200, body := .obj [("ok", .bool true), ("receivedAt", .str now)] } := by
  cases body <;> simp [ProfileApi.handler, truthy, jsTypeof] <;> split_ifs <;> simp_all

/-- A value satisfying "truthy only if a string" is either a non-empty
string (a present tier field) or falsy (an absent one); `specTierField`
agrees with that split. -/
theorem tierField_cases (v : JSValue) (h : truthy v = true → ∃ s, v = .str s) :
    (∃ s, v = .str s ∧ s ≠ "" ∧ truthy v = true ∧ ClaudeApi.specTierField v = some s) ∨
    (truthy v = false ∧ ClaudeApi.specTierField v = none) := by
  cases v with
  | str s =>
      by_cases hs : s = "" <;> simp [truthy, ClaudeApi.specTierField, hs]
  | undefined => simp [truthy, ClaudeApi.specTierField]
  | null => simp [truthy, ClaudeApi.specTierField]
  | bool b =>
      cases b
      · simp [truthy, ClaudeApi.specTierField]
      · obtain ⟨s, hs⟩ := h rfl; exact absurd hs (by simp)
  | num n =>
      by_cases hn : n = 0
      · simp [truthy, ClaudeApi.specTierField, hn]
      · obtain ⟨s, hs⟩ := h (by simp [truthy, hn]); exact absurd hs (by simp)
  | obj fs => obtain ⟨s, hs⟩ := h rfl; exact absurd hs (by simp)
  | arr xs => obtain ⟨s, hs⟩ := h rfl; exact absurd hs (by simp)

/-! ## Claims about the Profile Intake endpoint (C1, C10) -/

/-- C1, counterexample.  The claim says a `POST` with an absent body
returns 400 "Invalid profile payload"; in the code `req.body || \x7b\x7d`
replaces the absent body with an empty object first, so the handler
answers 200 instead. -/
theorem claim_C1_counterexample :
    (ProfileApi.handler "POST" JSValue.undefined "2024-05-01T00:00:00.000Z").status = 200 ∧
    ¬ (ProfileApi.handler "POST" JSValue.undefined "2024-05-01T00:00:00.000Z").status = 400 :=
  ⟨rfl, by decide⟩

/-- C1, amended.  For every `POST` to the Profile Intake endpoint:
a body that is a JSON object — and likewise any falsy (absent) body,
which is replaced by an empty object — yields status 200 with
`ok: true` and `receivedAt` set to the current ISO-8601 timestamp;
only a truthy body whose type is not `object` yields status 400 with
error "Invalid profile payload". -/
theorem claim_C1_amended (body : JSValue) (now : String) :
    (truthy body = false →
      ProfileApi.handler "POST" body now =
        { status := 200, body := .obj [("ok", .bool true), ("receivedAt", .str now)] }) ∧
    (∀ fields, body = .obj fields →
      ProfileApi.handler "POST" body now =
        { status := 200, body := .obj [("ok", .bool true), ("receivedAt", .str now)] }) ∧
    (truthy body = true → jsTypeof body ≠ "object" →
      ProfileApi.handler "POST" body now =
        { status := 400, body := .obj [("error", .str "Invalid profile payload")] }) := by
  rw [profile_handler_post]
  refine ⟨fun h => ?_, fun fields hf => ?_, fun h1 h2 => ?_⟩
  · simp [h]
  · subst hf; simp [jsTypeof]
  · simp [h1, h2]

/-- C1, witness: a concrete object body is acknowledged with 200 and a
concrete non-object body is rejected with 400. -/
theorem claim_C1_amended_witness :
    ProfileApi.handler "POST" (.obj [("goal", .str "retirement")]) "2024-05-01T00:00:00.000Z" =
      { status := 200
      , body := .obj [("ok", .bool true), ("receivedAt", .str "2024-05-01T00:00:00.000Z")] } ∧
    ProfileApi.handler "POST" (.str "not an object") "2024-05-01T00:00:00.000Z" =
      { status := 400, body := .obj [("error", .str "Invalid profile payload")] } :=
  ⟨(claim_C1_amended _ _).2.1 _ rfl, (claim_C1_amended _ _).2.2 rfl (by decide)⟩

/-- C10.  Every falsy `POST` body (absent, null, empty string, 0,
false) is replaced by an empty object and acknowledged with 200
`ok: true`; the 400 "Invalid profile payload" branch is reached exactly
by a truthy body whose type is not `object`. -/
theorem claim_C10 (body : JSValue) (now : String) :
    (truthy body = false →
      ProfileApi.handler "POST" body now =
        { status := 200, body := .obj [("ok", .bool true), ("receivedAt", .str now)] }) ∧
    ((ProfileApi.handler "POST" body now).status = 400 ↔
      truthy body = true ∧ jsTypeof body ≠ "object") := by
  rw [profile_handler_post]
  constructor
  · intro h; simp [h]
  · split_ifs with hc
    · simp [hc]
    · simp [hc]

/-- C10, witness: a `null` body is acknowledged with 200 and a truthy
non-object body (a nonzero number) hits the 400 branch. -/
theorem claim_C10_witness :
    ProfileApi.handler "POST" JSValue.null "2024-05-01T00:00:00.000Z" =
      { status := 200
      , body := .obj [("ok", .bool true), ("receivedAt", .str "2024-05-01T00:00:00.000Z")] } ∧
    (ProfileApi.handler "POST" (JSValue.num 7) "2024-05-01T00:00:00.000Z").status = 400 :=
  ⟨(claim_C10 _ _).1 rfl, (claim_C10 _ _).2.mpr ⟨by decide, by decide⟩⟩

/-- `s.slice(0, n)` keeps at most `n` characters. -/
theorem strTake_length (s : String) (n : Nat) : (strTake s n).length = min n s.length :=
  List.length_take n s.data

/-! ## Claim about tier derivation (C2) -/

/-- C2.  For every resolved user whose metadata `tier` members are
strings when truthy (the spec describes them as tier-name strings),
the derived tier equals the spec-side priority derivation `specTier`:
private-metadata tier if present, else public-metadata tier if
present, else `beta` on the email-domain allow-list
(`@atticusconseil.com`, `@atticus.com`) or a set `betaAccess` flag,
else `free`. -/
theorem claim_C2 (u : ClaudeApi.User)
    (hpriv : truthy (getField u.privateMetadata "tier") = true →
      ∃ s, getField u.privateMetadata "tier" = .str s)
    (hpub : truthy (getField u.publicMetadata "tier") = true →
      ∃ s, getField u.publicMetadata "tier" = .str s) :
    ClaudeApi.getUserTier u = ClaudeApi.specTier u := by
  rcases tierField_cases _ hpriv with ⟨s, hv, hs, ht, hsp⟩ | ⟨ht, hsp⟩ <;>
    rcases tierField_cases _ hpub with ⟨t, hv2, hs2, ht2, hsp2⟩ | ⟨ht2, hsp2⟩ <;>
      simp_all [ClaudeApi.getUserTier, ClaudeApi.specTier, truthy, ClaudeApi.specTierField]

/-- C2, witness: a user with a private-metadata tier overriding a
public-metadata tier; the derivation follows the private value. -/
theorem claim_C2_witness :
    ClaudeApi.getUserTier
        { id := "u42", firstName := "Ada", primaryEmail := some "ada@example.com"
        , publicMetadata := [("tier", .str "premium")]
        , privateMetadata := [("tier", .str "beta")] } =
      ClaudeApi.specTier
        { id := "u42", firstName := "Ada", primaryEmail := some "ada@example.com"
        , publicMetadata := [("tier", .str "premium")]
        , privateMetadata := [("tier", .str "beta")] } ∧
    ClaudeApi.getUserTier
        { id := "u42", firstName := "Ada", primaryEmail := some "ada@example.com"
        , publicMetadata := [("tier", .str "premium")]
        , privateMetadata := [("tier", .str "beta")] } = .str "beta" :=
  ⟨claim_C2 _ (fun _ => ⟨"beta", rfl⟩) (fun _ => ⟨"premium", rfl⟩), rfl⟩

/-! ## Claim about the Tier & Usage Limiter (C3) -/

/-- C5.  `safeJSONString` at the cap of 4000:
for every object input the result has length ≤ 4000; when the full
serialization exceeds 4000 characters the result is the serialization
of the object rebuilt from its first 20 top-level keys, truncated to
3997 characters plus a trailing `...` if that is still over 4000; and
any input whose serialization fails to produce a string (a top-level
`undefined`, where `s.length` raises into the catch) yields the
literal `\x7b\x7d`. -/
theorem claim_C5 (fields : List (String × JSValue)) (v : JSValue) :
    (ClaudeApi.safeJSONString (.obj fields) 4000).length ≤ 4000 ∧
    (((stringify (.obj fields)).getD "").length > 4000 →
      ∃ out, stringify (JSValue.obj
          (((fields.map Prod.fst).take 20).map (fun k => (k, getField fields k)))) = some out ∧
        (ClaudeApi.safeJSONString (.obj fields) 4000 = out ∨
          (out.length > 4000 ∧
            ClaudeApi.safeJSONString (.obj fields) 4000 = strTake out 3997 ++ "..."))) ∧
    (stringify v = none → ClaudeApi.safeJSONString v 4000 = "\x7b\x7d") := by
  refine ⟨?_, fun h => ?_, fun hv => ?_⟩
  · simp only [ClaudeApi.safeJSONString, stringify]
    split_ifs with h1 h2
    · exact h1
    · rw [String.length_append, strTake_length]
      have hdots : ("..." : String).length = 3 := rfl
      omega
    · omega
  · refine ⟨_, rfl, ?_⟩
    simp only [ClaudeApi.safeJSONString, stringify, jsObjectKeys, getProp] at h ⊢
    simp only [Option.getD_some] at h
    rw [if_neg (by omega)]
    split_ifs with h2
    · right
      exact ⟨h2, by norm_num⟩
    · left; rfl
  · simp [ClaudeApi.safeJSONString, hv]

/-- Escaping a run of `x` characters is the identity. -/
theorem flatMap_escape_rep (n : Nat) :
    (List.replicate n 'x').flatMap jsonEscapeChar = List.replicate n 'x' := by
  induction n with
  | zero => rfl
  | succ n ih => rw [List.replicate_succ, List.flatMap_cons, ih]; rfl

/-- Length of the JSON quotation of a 4001-character string. -/
theorem jsonQuote_rep_length :
    (jsonQuote (⟨List.replicate 4001 'x'⟩ : String)).length = 4003 := by
  show (Char.ofNat 34 :: ((List.replicate 4001 'x').flatMap jsonEscapeChar)
      ++ [Char.ofNat 34]).length = 4003
  rw [flatMap_escape_rep]
  simp only [List.length_cons, List.length_append, List.length_replicate, List.length_nil]

/-- The serialization of the one-field example object, spelled out. -/
theorem stringify_bigObj_eq :
    (stringify (JSValue.obj [("k", JSValue.str ⟨List.replicate 4001 'x'⟩)])).getD "" =
      "\x7b" ++ (jsonQuote "k" ++ ":" ++ jsonQuote (⟨List.replicate 4001 'x'⟩ : String))
        ++ "\x7d" := rfl

/-- The one-field example object serializes to more than 4000
characters. -/
theorem stringify_bigObj_length :
    ((stringify (JSValue.obj [("k", JSValue.str ⟨List.replicate 4001 'x'⟩)])).getD "").length
      > 4000 := by
  rw [stringify_bigObj_eq]
  rw [String.length_append, String.length_append, String.length_append, String.length_append,
    jsonQuote_rep_length]
  decide

/-- C5, witness: a one-field object whose value is a 4001-character
string (full serialization length 4009), plus the failure case at a
top-level `undefined`. -/
theorem claim_C5_witness :
    (ClaudeApi.safeJSONString (.obj [("k", .str ⟨List.replicate 4001 'x'⟩)]) 4000).length
        ≤ 4000 ∧
    (∃ out, stringify (JSValue.obj
        ((([("k", JSValue.str ⟨List.replicate 4001 'x'⟩)].map Prod.fst).take 20).map
          (fun k => (k, getField [("k", JSValue.str ⟨List.replicate 4001 'x'⟩)] k)))) =
        some out ∧
      (ClaudeApi.safeJSONString (.obj [("k", .str ⟨List.replicate 4001 'x'⟩)]) 4000 = out ∨
        (out.length > 4000 ∧
          ClaudeApi.safeJSONString (.obj [("k", .str ⟨List.replicate 4001 'x'⟩)]) 4000 =
            strTake out 3997 ++ "..."))) ∧
    ClaudeApi.safeJSONString JSValue.undefined 4000 = "\x7b\x7d" :=
  ⟨(claim_C5 [("k", .str ⟨List.replicate 4001 'x'⟩)] JSValue.undefined).1,
   (claim_C5 [("k", .str ⟨List.replicate 4001 'x'⟩)] JSValue.undefined).2.1
     stringify_bigObj_length,
   (claim_C5 [] JSValue.undefined).2.2 rfl⟩

/-! ## Claim about profile augmentation (C6) -/

/-- C6.  For every base system string: a profile that is not an object
(in the JavaScript sense — arrays are objects, `null` is a primitive)
leaves the base string unchanged; a profile that is an object extends
it to `base + "\n" + profileBlock`, a delimited block that contains
the literal marker text "PROFIL UTILISATEUR" and the `safeJSONString`
serialization of the profile. -/
theorem claim_C6 (base : String) (profile : JSValue) :
    (isObjectValue profile = false → ClaudeApi.appendProfileToSystem base profile = base) ∧
    (isObjectValue profile = true →
      ClaudeApi.appendProfileToSystem base profile =
        base ++ "\n" ++ ClaudeApi.profileBlock (ClaudeApi.safeJSONString profile 4000) ∧
      (∃ pre post, ClaudeApi.appendProfileToSystem base profile =
        pre ++ "PROFIL UTILISATEUR" ++ post) ∧
      (∃ pre post, ClaudeApi.appendProfileToSystem base profile =
        pre ++ ClaudeApi.safeJSONString profile 4000 ++ post)) := by
  have hblock : ∀ json : String,
      base ++ "\n" ++ ClaudeApi.profileBlock json =
        ((base ++ "\n" ++ "\n---\n") ++ "PROFIL UTILISATEUR") ++
          (" (résumé JSON à utiliser pour personnaliser sans le répéter mot à mot) :\n"
            ++ (json
            ++ "\n\nConsignes de personnalisation :\n- Adapter systématiquement recommandations au profil (objectifs, tolérance au risque, horizon, capacité d\x27épargne).\n- Ne pas réimprimer le JSON brut ; intégrer l\x27info naturellement dans la réponse.\n- Privilégier le droit/fiscalité FR et rappeler limites si info manquante/incertaine.\n---")) := by
    intro json
    show base ++ "\n" ++
        ("\n---\nPROFIL UTILISATEUR (résumé JSON à utiliser pour personnaliser sans le répéter mot à mot) :\n"
          ++ json ++ _) = _
    rw [show ("\n---\nPROFIL UTILISATEUR (résumé JSON à utiliser pour personnaliser sans le répéter mot à mot) :\n" : String) =
        "\n---\n" ++ ("PROFIL UTILISATEUR" ++ " (résumé JSON à utiliser pour personnaliser sans le répéter mot à mot) :\n") from rfl]
    simp only [String.append_assoc]
  have hjson : ∀ json : String,
      base ++ "\n" ++ ClaudeApi.profileBlock json =
        ((base ++ "\n" ++ "\n---\nPROFIL UTILISATEUR (résumé JSON à utiliser pour personnaliser sans le répéter mot à mot) :\n") ++ json) ++
          "\n\nConsignes de personnalisation :\n- Adapter systématiquement recommandations au profil (objectifs, tolérance au risque, horizon, capacité d\x27épargne).\n- Ne pas réimprimer le JSON brut ; intégrer l\x27info naturellement dans la réponse.\n- Privilégier le droit/fiscalité FR et rappeler limites si info manquante/incertaine.\n---" := by
    intro json
    show base ++ "\n" ++
        ("\n---\nPROFIL UTILISATEUR (résumé JSON à utiliser pour personnaliser sans le répéter mot à mot) :\n"
          ++ json ++ _) = _
    simp only [String.append_assoc]
  constructor
  · intro h
    cases profile <;> simp_all [ClaudeApi.appendProfileToSystem, truthy, jsTypeof, isObjectValue]
  · intro h
    have heq : ClaudeApi.appendProfileToSystem base profile =
        base ++ "\n" ++ ClaudeApi.profileBlock (ClaudeApi.safeJSONString profile 4000) := by
      cases profile <;> simp_all [ClaudeApi.appendProfileToSystem, truthy, jsTypeof, isObjectValue]
    refine ⟨heq,
      ⟨base ++ "\n" ++ "\n---\n",
       " (résumé JSON à utiliser pour personnaliser sans le répéter mot à mot) :\n"
         ++ (ClaudeApi.safeJSONString profile 4000 ++ "\n\nConsignes de personnalisation :\n- Adapter systématiquement recommandations au profil (objectifs, tolérance au risque, horizon, capacité d\x27épargne).\n- Ne pas réimprimer le JSON brut ; intégrer l\x27info naturellement dans la réponse.\n- Privilégier le droit/fiscalité FR et rappeler limites si info manquante/incertaine.\n---"), ?_⟩,
      ⟨base ++ "\n" ++ "\n---\nPROFIL UTILISATEUR (résumé JSON à utiliser pour personnaliser sans le répéter mot à mot) :\n",
       "\n\nConsignes de personnalisation :\n- Adapter systématiquement recommandations au profil (objectifs, tolérance au risque, horizon, capacité d\x27épargne).\n- Ne pas réimprimer le JSON brut ; intégrer l\x27info naturellement dans la réponse.\n- Privilégier le droit/fiscalité FR et rappeler limites si info manquante/incertaine.\n---", ?_⟩⟩
    · rw [heq]; exact hblock _
    · rw [heq]; exact hjson _


/-- C6, witness: a non-object profile leaves the base untouched; the
concrete profile `\x7b goal: "retirement" \x7d` is appended inside the
marked block. -/
theorem claim_C6_witness :
    ClaudeApi.appendProfileToSystem "BASE" (.str "x") = "BASE" ∧
    (ClaudeApi.appendProfileToSystem "BASE" (.obj [("goal", .str "retirement")]) =
      "BASE" ++ "\n" ++ ClaudeApi.profileBlock
        (ClaudeApi.safeJSONString (.obj [("goal", .str "retirement")]) 4000) ∧
      (∃ pre post, ClaudeApi.appendProfileToSystem "BASE" (.obj [("goal", .str "retirement")]) =
        pre ++ "PROFIL UTILISATEUR" ++ post) ∧
      (∃ pre post, ClaudeApi.appendProfileToSystem "BASE" (.obj [("goal", .str "retirement")]) =
        pre ++ ClaudeApi.safeJSONString (.obj [("goal", .str "retirement")]) 4000 ++ post)) :=
  ⟨(claim_C6 "BASE" (.str "x")).1 rfl,
   (claim_C6 "BASE" (.obj [("goal", .str "retirement")])).2 rfl⟩

/-! ## Claim about the authentication fallback chain (C4)

The next theorems live in `namespace ClaudeApi`; they characterize the
base64-composite strategy of `authenticateUser`.  The claim as frozen
(`claimC4AsStated`) omits the `email && userId` guard of the source and
is therefore refuted by `claim_C4_counterexample`; `claim_C4_amended`
is the guarded characterization. -/

namespace ClaudeApi

end ClaudeApi

/-! ## Claims about the Chat Proxy pipeline (C7, C8, C9) -/

namespace ClaudeApi

/-- Setting a member and reading it back yields the set value
(map case: the key was present). -/
theorem getField_map_set (fields : List (String × JSValue)) (k : String) (v : JSValue)
    (h : fields.any (fun p => p.1 == k) = true) :
    getField (fields.map (fun p => if p.1 == k then (p.1, v) else p)) k = v := by
  induction fields with
  | nil => simp at h
  | cons p rest ih =>
      by_cases hp : (p.1 == k) = true
      · simp [getField, List.find?, hp]
      · simp only [List.any_cons, Bool.or_eq_true] at h
        rcases h with h | h
        · exact absurd h hp
        · have hstep : getField ((p :: rest).map (fun p => if p.1 == k then (p.1, v) else p)) k
              = getField (rest.map (fun p => if p.1 == k then (p.1, v) else p)) k := by
            simp [getField, List.find?, hp]
          rw [hstep]
          exact ih h

/-- Setting a member and reading it back yields the set value
(append case: the key was absent). -/
theorem getField_append_set (fields : List (String × JSValue)) (k : String) (v : JSValue)
    (h : fields.any (fun p => p.1 == k) = false) :
    getField (fields ++ [(k, v)]) k = v := by
  induction fields with
  | nil => simp [getField, List.find?]
  | cons p rest ih =>
      simp only [List.any_cons, Bool.or_eq_false_iff] at h
      have hstep : getField ((p :: rest) ++ [(k, v)]) k = getField (rest ++ [(k, v)]) k := by
        simp [getField, List.find?, h.1]
      rw [hstep]
      exact ih h.2

/-- Reading back an object-literal member assignment. -/
theorem getField_setField (fields : List (String × JSValue)) (k : String) (v : JSValue) :
    getField (setField fields k v) k = v := by
  unfold setField
  split_ifs with h
  · exact getField_map_set fields k v h
  · exact getField_append_set fields k v (Bool.eq_false_iff.mpr h)

/-- The final step of `authenticateUser` builds a success only from a
resolved user, with the derived tier and the user's own id. -/
theorem authResult_of_userOpt (o : Option User) (u : User) (t : JSValue) (i : String)
    (hs : (match o with
      | none => AuthResult.failure "Invalid authentication token" 401
      | some u => AuthResult.success u (getUserTier u) u.id) = .success u t i) :
    t = getUserTier u ∧ i = u.id := by
  cases o with
  | none => cases hs
  | some u2 =>
      injection hs with h1 h2 h3
      subst h1
      exact ⟨h2.symm, h3.symm⟩

/-- Inversion: a successful authentication always carries
`getUserTier user` as its tier and `user.id` as its id. -/
theorem authenticateUser_success_inv (env : ClerkEnv) (h : Option String)
    (u : User) (t : JSValue) (i : String)
    (hs : authenticateUser env h = .success u t i) :
    t = getUserTier u ∧ i = u.id := by
  cases h with
  | none =>
      simp only [authenticateUser] at hs
      cases hs
  | some hd =>
      simp only [authenticateUser] at hs
      by_cases hpre : (!jsStartsWith hd "Bearer ") = true
      · rw [if_pos hpre] at hs
        cases hs
      · rw [if_neg hpre] at hs
        exact authResult_of_userOpt _ u t i hs

/-- The handler on a non-success provider response: 500 with the
generic message for provider status >= 500, the provider status with
"API request failed" otherwise. -/
theorem handler_provider_fail (w : ChatWorld) (authHeader : Option String) (reqBody : JSValue)
    (user : User) (tier : JSValue) (userId : String) (apiKey : String)
    (hauth : authenticateUser w.clerk authHeader = .success user tier userId)
    (hallowed : (checkUsageLimit userId tier).allowed = true)
    (hkey : w.claudeApiKey = some apiKey)
    (hfail : respOk (chatOutboundResp w reqBody) = false) :
    handler w "POST" authHeader reqBody =
      { status := if (chatOutboundResp w reqBody).status ≥ 500 then 500
          else (chatOutboundResp w reqBody).status
      , body := .obj [("error", .str
          (if (chatOutboundResp w reqBody).status ≥ 500 then "Internal server error"
           else "API request failed"))] } := by
  simp only [chatOutboundResp] at hfail
  simp [handler, hauth, hallowed, hkey, hfail, chatOutboundResp]

/-- C7.  On every authenticated, quota-permitted request for which the
provider answers a non-success status: the handler returns 500 with
error "Internal server error" when the provider status is >= 500, and
the provider's own status with error "API request failed" otherwise.
In both cases the client body is exactly the one-member error object,
so the provider's response body (`bodyText`/`json`) never reaches the
client. -/
theorem claim_C7 (w : ChatWorld) (authHeader : Option String) (reqBody : JSValue)
    (user : User) (tier : JSValue) (userId : String) (apiKey : String)
    (hauth : authenticateUser w.clerk authHeader = .success user tier userId)
    (hallowed : (checkUsageLimit userId tier).allowed = true)
    (hkey : w.claudeApiKey = some apiKey)
    (hfail : respOk (chatOutboundResp w reqBody) = false) :
    ((chatOutboundResp w reqBody).status ≥ 500 →
      handler w "POST" authHeader reqBody =
        { status := 500, body := .obj [("error", .str "Internal server error")] }) ∧
    ((chatOutboundResp w reqBody).status < 500 →
      handler w "POST" authHeader reqBody =
        { status := (chatOutboundResp w reqBody).status
        , body := .obj [("error", .str "API request failed")] }) := by
  have hmain := handler_provider_fail w authHeader reqBody user tier userId apiKey
    hauth hallowed hkey hfail
  constructor
  · intro h5
    rw [hmain]
    simp [h5]
  · intro h5
    rw [hmain]
    simp [Nat.not_le.mpr h5]

/-- C7, witness: a provider 503 is relayed as 500 "Internal server
error" (the provider body "overloaded" appears nowhere). -/
theorem claim_C7_witness :
    handler
        { clerk :=
            { getSession := fun t => if t == "sess_7" then some "u7" else none
            , verifyToken := fun _ => none
            , getUser := fun id =>
                if id == "u7" then
                  some { id := "u7", firstName := "Frank",
                         primaryEmail := some "frank@example.com",
                         publicMetadata := [], privateMetadata := [] }
                else none }
        , claudeApiKey := some "sk-live"
        , provider := fun _ _ _ _ =>
            { status := 503, bodyText := "overloaded", json := .null }
        , resetTime := 0 }
        "POST" (some "Bearer sess_7") (.obj []) =
      { status := 500, body := .obj [("error", .str "Internal server error")] } :=
  (claim_C7
    { clerk :=
        { getSession := fun t => if t == "sess_7" then some "u7" else none
        , verifyToken := fun _ => none
        , getUser := fun id =>
            if id == "u7" then
              some { id := "u7", firstName := "Frank",
                     primaryEmail := some "frank@example.com",
                     publicMetadata := [], privateMetadata := [] }
            else none }
    , claudeApiKey := some "sk-live"
    , provider := fun _ _ _ _ => { status := 503, bodyText := "overloaded", json := .null }
    , resetTime := 0 }
    (some "Bearer sess_7") (.obj [])
    { id := "u7", firstName := "Frank", primaryEmail := some "frank@example.com",
      publicMetadata := [], privateMetadata := [] }
    (.str "free") "u7" "sk-live" rfl rfl rfl rfl).1 (by decide)

/-- C8.  Two requests identical except for the body's `userTier`
member produce identical responses (the client-sent tier is
destructured into an unused variable); and on the success path the
response's `userTier` member equals the server-derived tier, which by
`authenticateUser_success_inv` is `getUserTier user`. -/
theorem claim_C8 (w : ChatWorld) (method : String) (authHeader : Option String)
    (fs1 fs2 : List (String × JSValue))
    (hagree : ∀ k, k ≠ "userTier" → getField fs1 k = getField fs2 k) :
    handler w method authHeader (.obj fs1) = handler w method authHeader (.obj fs2) ∧
    (∀ user tier userId apiKey,
      authenticateUser w.clerk authHeader = .success user tier userId →
      (checkUsageLimit userId tier).allowed = true →
      w.claudeApiKey = some apiKey →
      respOk (chatOutboundResp w (.obj fs1)) = true →
      tier = getUserTier user ∧
      getProp (handler w "POST" authHeader (.obj fs1)).body "userTier" = tier) := by
  constructor
  · have hm := hagree "messages" (by decide)
    have hmo := hagree "model" (by decide)
    have hmt := hagree "max_tokens" (by decide)
    have hp := hagree "profile" (by decide)
    have hsy := hagree "system" (by decide)
    simp only [handler, destructure, getProp, truthy, if_true]
    rw [hm, hmo, hmt, hp, hsy]
  · intro user tier userId apiKey hauth hallowed hkey hok
    refine ⟨(authenticateUser_success_inv _ _ _ _ _ hauth).1, ?_⟩
    have hres : handler w "POST" authHeader (.obj fs1) =
        { status := 200
        , body := spreadWith (chatOutboundResp w (.obj fs1)).json
            [("usage", usageToJS (checkUsageLimit userId tier).usage), ("userTier", tier)] } := by
      simp only [chatOutboundResp] at hok
      simp [handler, hauth, hallowed, hkey, hok, chatOutboundResp]
    rw [hres]
    simp only [spreadWith, getProp, List.foldl]
    exact getField_setField _ "userTier" tier

end ClaudeApi

namespace ClaudeApi

/-- C8, witness: concrete twin requests differing only in the body
`userTier` (`premium` vs `free`) get identical responses, and the
response's `userTier` is the server-derived `free`. -/
theorem claim_C8_witness :
    handler
        { clerk :=
            { getSession := fun t => if t == "sess_8" then some "u8" else none
            , verifyToken := fun _ => none
            , getUser := fun id =>
                if id == "u8" then
                  some { id := "u8", firstName := "Hana",
                         primaryEmail := some "hana@example.com",
                         publicMetadata := [], privateMetadata := [] }
                else none }
        , claudeApiKey := some "sk-8"
        , provider := fun _ _ _ _ =>
            { status := 200, bodyText := "", json := .obj [("id", .str "msg_1")] }
        , resetTime := 0 }
        "POST" (some "Bearer sess_8")
        (.obj [("messages", .arr []), ("userTier", .str "premium")]) =
      handler
        { clerk :=
            { getSession := fun t => if t == "sess_8" then some "u8" else none
            , verifyToken := fun _ => none
            , getUser := fun id =>
                if id == "u8" then
                  some { id := "u8", firstName := "Hana",
                         primaryEmail := some "hana@example.com",
                         publicMetadata := [], privateMetadata := [] }
                else none }
        , claudeApiKey := some "sk-8"
        , provider := fun _ _ _ _ =>
            { status := 200, bodyText := "", json := .obj [("id", .str "msg_1")] }
        , resetTime := 0 }
        "POST" (some "Bearer sess_8")
        (.obj [("messages", .arr []), ("userTier", .str "free")]) ∧
    getProp
        (handler
          { clerk :=
              { getSession := fun t => if t == "sess_8" then some "u8" else none
              , verifyToken := fun _ => none
              , getUser := fun id =>
                  if id == "u8" then
                    some { id := "u8", firstName := "Hana",
                           primaryEmail := some "hana@example.com",
                           publicMetadata := [], privateMetadata := [] }
                  else none }
          , claudeApiKey := some "sk-8"
          , provider := fun _ _ _ _ =>
              { status := 200, bodyText := "", json := .obj [("id", .str "msg_1")] }
          , resetTime := 0 }
          "POST" (some "Bearer sess_8")
          (.obj [("messages", .arr []), ("userTier", .str "premium")])).body
        "userTier" = .str "free" := by
  have hagree : ∀ k, k ≠ "userTier" →
      getField [("messages", JSValue.arr []), ("userTier", JSValue.str "premium")] k =
      getField [("messages", JSValue.arr []), ("userTier", JSValue.str "free")] k := by
    intro k hk
    by_cases hm : ("messages" == k) = true
    · simp [getField, List.find?, hm]
    · have ht : ("userTier" == k) = false := beq_eq_false_iff_ne.mpr (fun e => hk e.symm)
      simp [getField, List.find?, hm, ht]
  have hmain := claim_C8
    { clerk :=
        { getSession := fun t => if t == "sess_8" then some "u8" else none
        , verifyToken := fun _ => none
        , getUser := fun id =>
            if id == "u8" then
              some { id := "u8", firstName := "Hana",
                     primaryEmail := some "hana@example.com",
                     publicMetadata := [], privateMetadata := [] }
            else none }
    , claudeApiKey := some "sk-8"
    , provider := fun _ _ _ _ =>
        { status := 200, bodyText := "", json := .obj [("id", .str "msg_1")] }
    , resetTime := 0 }
    "POST" (some "Bearer sess_8")
    [("messages", .arr []), ("userTier", .str "premium")]
    [("messages", .arr []), ("userTier", .str "free")]
    hagree
  exact ⟨hmain.1,
    (hmain.2
      { id := "u8", firstName := "Hana", primaryEmail := some "hana@example.com",
        publicMetadata := [], privateMetadata := [] }
      (.str "free") "u8" "sk-8" rfl rfl rfl (by decide)).2⟩

end ClaudeApi

end AtticusChat
